import Mathlib

/-!
Verification development for the language-tutor tutoring-session engine.

The definitions below are a shallow embedding of `src/tutor/ai_tutor.py`
(class `AITutor`) and `src/utils/database.py` (class `ProgressTracker`).
Python floats are modelled as rationals, `datetime` timestamps as integer
seconds, and the LLM backend plus the JSON decoder as explicit function
parameters (`llm`, `parse`), so that every operation of the engine is a
total, executable Lean function.
-/

namespace LanguageTutor

/-- JSON values as produced by a JSON decoder (Python `json.loads`).
Objects are association lists of key/value pairs. -/
inductive Json where
  | null : Json
  | bool (b : Bool) : Json
  | num (q : ℚ) : Json
  | str (s : String) : Json
  | arr (elems : List Json) : Json
  | obj (fields : List (String × Json)) : Json

/-- Dictionary lookup on a JSON object (Python `dict.get` without default):
`none` when the key is absent or the value is not an object. -/
def jsonGet (j : Json) (key : String) : Option Json :=
  match j with
  | .obj fields => (fields.find? (fun kv => kv.1 == key)).map (fun kv => kv.2)
  | _ => none

/-- `true` exactly when the JSON value is a string. -/
def Json.isStr : Json → Bool
  | .str _ => true
  | _ => false

/-- `true` exactly when the JSON value is a number. -/
def Json.isNum : Json → Bool
  | .num _ => true
  | _ => false

/-- `true` exactly when the JSON value is an array of strings. -/
def Json.isStrArr : Json → Bool
  | .arr elems => elems.all Json.isStr
  | _ => false

/-- A chat message as passed to the model
(langchain `SystemMessage` / `HumanMessage` / `AIMessage`). -/
inductive Message where
  | system (content : String) : Message
  | human (content : String) : Message
  | ai (content : String) : Message
deriving DecidableEq

/-- The `lesson_context` dictionary of `AITutor`, restricted to the keys the
code reads (`title`, `description`, `topics`, `vocabulary`,
`sample_dialogues`); an absent key is `none`. -/
structure LessonContext where
  title : Option String := none
  description : Option String := none
  topics : Option (List String) := none
  vocabulary : Option (List String) := none
  sample_dialogues : Option (List String) := none
deriving DecidableEq

/-- Python truthiness of the `lesson_context` dict (`if self.lesson_context:`):
nonempty iff some recognized key is present. -/
def LessonContext.truthy (c : LessonContext) : Bool :=
  c.title.isSome || c.description.isSome || c.topics.isSome ||
    c.vocabulary.isSome || c.sample_dialogues.isSome

/-- The mutable conversational state of an `AITutor` instance:
the learning context set by `set_learning_context` and the raw
`memory.chat_memory.messages` list. -/
structure TutorState where
  current_language : String
  current_difficulty : String
  current_lesson_type : String
  lesson_context : LessonContext
  memory : List Message
deriving DecidableEq

/-- `AITutor.get_system_prompt` (ai_tutor.py lines 99-135): the base prompt
with the language/difficulty/lesson-type substitutions, plus the
lesson-context suffixes when the corresponding keys are present. -/
def get_system_prompt (st : TutorState) : String :=
  let base := "You are an expert language tutor for " ++ st.current_language ++
    ". Your student is at a " ++ st.current_difficulty ++
    " level and is working on " ++ st.current_lesson_type ++
    ".\n\nYour teaching approach should be:\n1. Encouraging and patient\n2. Corrective but constructive\n3. Adaptive to the student\x27s level\n4. Interactive and engaging\n5. Focused on practical usage\n\nGuidelines:\n- Always respond in a mix of " ++
    st.current_language ++ " and English appropriate for the " ++
    st.current_difficulty ++ " level\n- For beginners: Use more English with simple " ++
    st.current_language ++ " phrases\n- For intermediate: Use more " ++
    st.current_language ++ " with English explanations when needed  \n- For advanced: Primarily use " ++
    st.current_language ++ " with minimal English\n\nWhen the student makes mistakes:\n- Gently correct them\n- Explain why it\x27s incorrect\n- Provide the correct version\n- Give additional examples if helpful\n\nEncourage the student to practice speaking and ask questions."
  if st.lesson_context.truthy then
    let base := match st.lesson_context.topics with
      | some ts => base ++ "\n\nCurrent lesson topics: " ++ String.intercalate ", " ts
      | none => base
    let base := match st.lesson_context.vocabulary with
      | some vs => base ++ "\n\nKey vocabulary to practice: " ++ String.intercalate ", " vs
      | none => base
    match st.lesson_context.sample_dialogues with
      | some _ => base ++ "\n\nYou can reference these sample dialogues for context and practice."
      | none => base
  else base

/-- The analysis prompt built by `_analyze_student_input`
(ai_tutor.py lines 210-222), containing the student input verbatim. -/
def analysisPrompt (language difficulty input_text : String) : String :=
  "Analyze this " ++ language ++ " text from a " ++ difficulty ++
    " level student: \"" ++ input_text ++
    "\"\n\nProvide analysis in JSON format:\n\x7b\n    \"grammar_score\": 0-10,\n    \"vocabulary_level\": \"beginner/intermediate/advanced\", \n    \"errors\": [\"list of specific errors if any\"],\n    \"strengths\": [\"list of things done well\"],\n    \"suggestions\": [\"specific improvement suggestions\"],\n    \"confidence\": 0.0-1.0\n\x7d\n\nFocus on constructive feedback appropriate for their level."

/-- The fixed system message of the analysis call (ai_tutor.py line 226). -/
def analysisSystemMessage : String :=
  "You are a language analysis expert. Respond only with valid JSON."

/-- The message list sent to the model by `_analyze_student_input`. -/
def analysisMessages (language difficulty input_text : String) : List Message :=
  [Message.system analysisSystemMessage,
   Message.human (analysisPrompt language difficulty input_text)]

/-- The hard-coded fallback feedback record of `_analyze_student_input`
(ai_tutor.py lines 236-243). -/
def fallbackFeedback (difficulty : String) : Json :=
  Json.obj
    [("grammar_score", Json.num 7),
     ("vocabulary_level", Json.str difficulty.toLower),
     ("errors", Json.arr []),
     ("strengths", Json.arr [Json.str "Participated in the conversation"]),
     ("suggestions", Json.arr [Json.str "Keep practicing!"]),
     ("confidence", Json.num (7/10))]

/-- `AITutor._analyze_student_input` (ai_tutor.py lines 208-243).
The model call is `llm` (`none` models `llm.invoke` raising) and the JSON
decoder is `parse` (`none` models `json.loads` raising `JSONDecodeError`);
the `try` block covers both, and any exception yields the fallback record.
A successful parse is returned as-is. -/
def analyze_student_input (llm : List Message → Option String)
    (parse : String → Option Json) (language difficulty input_text : String) : Json :=
  match llm (analysisMessages language difficulty input_text) with
  | none => fallbackFeedback difficulty
  | some content =>
    match parse content with
    | none => fallbackFeedback difficulty
    | some feedback => feedback

/-- Modelled from the spec: a fully-populated `FeedbackRecord` has all six
keys `grammar_score`, `vocabulary_level`, `errors`, `strengths`,
`suggestions`, `confidence` present with the declared types. Used only to
state claims about full population; the source has no such check. -/
def isFullFeedbackRecord (j : Json) : Bool :=
  (((jsonGet j "grammar_score").map Json.isNum).getD false) &&
  (((jsonGet j "vocabulary_level").map Json.isStr).getD false) &&
  (((jsonGet j "errors").map Json.isStrArr).getD false) &&
  (((jsonGet j "strengths").map Json.isStrArr).getD false) &&
  (((jsonGet j "suggestions").map Json.isStrArr).getD false) &&
  (((jsonGet j "confidence").map Json.isNum).getD false)

/-- The fixed apology string substituted when the model invocation raises
inside `process_student_input` (ai_tutor.py line 192). -/
def apologyString : String :=
  "I apologize, but I\x27m having trouble processing your message right now. Let\x27s continue with the lesson. Can you try rephrasing that?"

/-- The message list sent to the model by `process_student_input`
(ai_tutor.py lines 176-184): system prompt, then the raw
`memory.chat_memory.messages` history, then the new human turn. -/
def conversationMessages (st : TutorState) (student_input : String) : List Message :=
  [Message.system (get_system_prompt st)] ++ st.memory ++ [Message.human student_input]

/-- The Python exceptions reachable in the embedded code: the
`AttributeError` raised by `feedback.get("confidence", 0.8)` when the
analysis JSON is not a dict (ai_tutor.py line 205), and the `TypeError`
from subscripting the `None` returned by `fetchone()` for an unknown
session id (database.py line 87). -/
inductive PyError where
  | attributeError : PyError
  | typeError : PyError
deriving DecidableEq

/-- Python `x.get(key, default)` as called on the extracted feedback:
an association-list lookup when `x` is a dict, but an `AttributeError`
when `x` is any other JSON value (list, string, number, bool or null have
no `.get` method). -/
def jsonDictGet (j : Json) (key : String) (default : Json) :
    Except PyError Json :=
  match j with
  | .obj fields =>
    Except.ok (((fields.find? (fun kv => kv.1 == key)).map (fun kv => kv.2)).getD default)
  | _ => Except.error PyError.attributeError

/-- The dictionary returned by `process_student_input`
(ai_tutor.py lines 201-206). `confidence_score` holds the raw JSON value of
`feedback.get("confidence", 0.8)`. -/
structure TutorResult where
  response : String
  feedback : Json
  input_type : String
  confidence_score : Json

/-- `AITutor.process_student_input` (ai_tutor.py lines 161-206).
`llm` models `self.llm.invoke` returning the response content (`none` when
it raises, in which case the `except` branch substitutes `apologyString`).
The exchange is then appended to `memory.chat_memory` and
`_analyze_student_input` is run on the student input. Building the result
dictionary evaluates `feedback.get("confidence", 0.8)`, which raises
`AttributeError` when the extracted feedback is not a dict; the memory
append has already happened at that point, so the updated state is
returned alongside the `Except` outcome. -/
def process_student_input (llm : List Message → Option String)
    (parse : String → Option Json) (st : TutorState)
    (student_input : String) (input_type : String) :
    TutorState × Except PyError TutorResult :=
  let response_text :=
    match llm (conversationMessages st student_input) with
    | some content => content
    | none => apologyString
  let st2 : TutorState :=
    { st with memory := st.memory ++ [Message.human student_input, Message.ai response_text] }
  let feedback := analyze_student_input llm parse st.current_language st.current_difficulty student_input
  (st2,
   (jsonDictGet feedback "confidence" (Json.num (4/5))).map (fun c =>
     { response := response_text,
       feedback := feedback,
       input_type := input_type,
       confidence_score := c }))

/-- `n` successive `process_student_input` turns with the same input,
threading the tutor state. -/
def iterateProcess (llm : List Message → Option String) (parse : String → Option Json)
    (student_input input_type : String) (st : TutorState) : Nat → TutorState
  | 0 => st
  | n + 1 => (process_student_input llm parse
      (iterateProcess llm parse student_input input_type st n) student_input input_type).1

/-- The window size of the conversation memory:
`ConversationBufferWindowMemory(k=10)` (ai_tutor.py line 46). -/
def memoryK : Nat := 10

/-- The windowed view of the stored messages, as the langchain
`ConversationBufferWindowMemory` buffer would return it: the last
`2 * k` messages. The underlying `chat_memory.messages` list itself is
unbounded; `process_student_input` reads that raw list, not this view. -/
def windowedBuffer (messages : List Message) : List Message :=
  messages.drop (messages.length - 2 * memoryK)

/-- `AITutor.provide_pronunciation_feedback` (ai_tutor.py lines 287-296):
a pure cascade of strict comparisons on the transcription confidence;
the `text` argument is unused by the source. -/
def provide_pronunciation_feedback (text : String) (audio_confidence : ℚ) : String :=
  if audio_confidence > 9/10 then
    "Excellent pronunciation! Very clear and understandable."
  else if audio_confidence > 7/10 then
    "Good pronunciation! Try to speak a bit more clearly for some words."
  else if audio_confidence > 1/2 then
    "Your pronunciation needs some work. Try to speak more slowly and clearly."
  else
    "I had difficulty understanding. Let\x27s practice pronunciation of key words together."

/-- A row of the `sessions` table (database.py lines 22-34). Timestamps are
integer seconds; `end_time`, `duration` and `score` are NULL until
`end_session` writes them. -/
structure SessionRow where
  id : Nat
  user_id : String
  language : String
  lesson_type : String
  difficulty : String
  start_time : Int
  end_time : Option Int := none
  duration : Option Int := none
  score : Option Int := none
deriving DecidableEq

/-- A row of the `interactions` table (database.py lines 37-47). -/
structure InteractionRow where
  id : Nat
  session_id : Nat
  timestamp : Int
  user_input : String
  ai_response : String
  feedback_score : Option Int
deriving DecidableEq

/-- The SQLite store of `ProgressTracker` (the `progress_metrics` table is
never written or read by the class, so it is omitted). -/
structure Database where
  sessions : List SessionRow := []
  interactions : List InteractionRow := []
deriving DecidableEq

/-- `ProgressTracker.start_session` (database.py lines 64-78): inserts a row
with only `start_time` set and returns the autoincremented id together with
the new store. -/
def start_session (db : Database) (now : Int)
    (user_id language lesson_type difficulty : String) : Nat × Database :=
  let sid := db.sessions.length + 1
  (sid,
   { db with sessions := db.sessions ++
      [{ id := sid, user_id := user_id, language := language,
         lesson_type := lesson_type, difficulty := difficulty, start_time := now }] })

/-- `ProgressTracker.end_session` (database.py lines 80-99): reads the
session row by id — `fetchone()[0]` raises `TypeError` when the id is
unknown — then unconditionally overwrites `end_time`, `duration` and
`score`, with `duration = now - start_time` (no clamping and no check that
the session is still open). -/
def end_session (db : Database) (now : Int) (session_id : Nat)
    (score : Option Int) : Except PyError Database :=
  match db.sessions.find? (fun r => r.id == session_id) with
  | none => Except.error PyError.typeError
  | some s =>
    Except.ok { db with sessions := db.sessions.map (fun r =>
      if r.id == session_id then
        { r with end_time := some now, duration := some (now - s.start_time), score := score }
      else r) }

/-- `ProgressTracker.log_interaction` (database.py lines 101-112): appends
an interaction row unconditionally — there is no check that the session
exists or is open. -/
def log_interaction (db : Database) (now : Int) (session_id : Nat)
    (user_input ai_response : String) (feedback_score : Option Int) : Database :=
  { db with interactions := db.interactions ++
     [{ id := db.interactions.length + 1, session_id := session_id, timestamp := now,
        user_input := user_input, ai_response := ai_response,
        feedback_score := feedback_score }] }

/-- One row of the SQL aggregation in `get_user_progress`
(database.py lines 120-132): per `(language, lesson_type, difficulty)`
group, `AVG(score)` over non-NULL scores (NULL when all are NULL),
`COUNT(*)` over all rows, `SUM(duration)` over non-NULL durations. -/
structure GroupRow where
  language : String
  lesson_type : String
  difficulty : String
  avg_score : Option ℚ
  session_count : Nat
  time_spent : Option Int
deriving DecidableEq

/-- The `GROUP BY language, lesson_type, difficulty` key of a session. -/
def groupKey (s : SessionRow) : String × String × String :=
  (s.language, s.lesson_type, s.difficulty)

/-- Distinct group keys of the filtered rows, in order of first occurrence. -/
def distinctKeys (rows : List SessionRow) : List (String × String × String) :=
  rows.foldl (fun acc s => if acc.contains (groupKey s) then acc else acc ++ [groupKey s]) []

/-- The result set of the aggregation query in `get_user_progress`:
one `GroupRow` per distinct `(language, lesson_type, difficulty)` key. -/
def sqlGroups (rows : List SessionRow) : List GroupRow :=
  (distinctKeys rows).map (fun k =>
    let members := rows.filter (fun s => groupKey s == k)
    let scores := members.filterMap (fun s => s.score)
    let durations := members.filterMap (fun s => s.duration)
    { language := k.1, lesson_type := k.2.1, difficulty := k.2.2,
      avg_score := if scores.isEmpty then none
        else some ((scores.map (fun i => (i : ℚ))).sum / (scores.length : ℚ)),
      session_count := members.length,
      time_spent := if durations.isEmpty then none else some durations.sum })

/-- The WHERE clause of `get_user_progress` (database.py lines 120-130):
matching user, `end_time IS NOT NULL`, and the language filter, which is
only added when the `language` argument is truthy (so `None` and the empty
string both disable it). -/
def sessionSelected (user_id : String) (language : Option String) (s : SessionRow) : Bool :=
  s.user_id == user_id && s.end_time.isSome &&
    (match language with
     | none => true
     | some l => if l == "" then true else s.language == l)

/-- One entry of the `progress_data["sessions"]` list
(database.py lines 150-157), with `avg_score or 0` and `time_spent or 0`. -/
structure ProgressEntry where
  language : String
  lesson_type : String
  difficulty : String
  average_score : ℚ
  session_count : Nat
  time_spent : Int
deriving DecidableEq

/-- The dictionary returned by `get_user_progress`
(database.py lines 137-167). -/
structure ProgressData where
  sessions : List ProgressEntry
  total_sessions : Nat
  total_time : Int
  average_score : ℚ
deriving DecidableEq

/-- The contribution of one group to the `total_score` accumulator:
`if avg_score: total_score += avg_score * session_count`
(database.py lines 161-162), so a NULL or `0` average adds nothing. -/
def scoreContribution (g : GroupRow) : ℚ :=
  match g.avg_score with
  | none => 0
  | some a => if a == 0 then 0 else a * (g.session_count : ℚ)

/-- The accumulation loop of `get_user_progress`
(database.py lines 144-166) over the aggregated group rows:
`total_sessions` and `total_time` sum over every group, `total_score`
skips falsy averages, and the grand `average_score` is
`total_score / total_sessions` when `total_sessions > 0`, else `0`. -/
def progressFromGroups (groups : List GroupRow) : ProgressData :=
  let total_sessions := (groups.map (fun g => g.session_count)).sum
  let total_time := (groups.map (fun g => g.time_spent.getD 0)).sum
  let total_score := (groups.map scoreContribution).sum
  { sessions := groups.map (fun g =>
      { language := g.language, lesson_type := g.lesson_type, difficulty := g.difficulty,
        average_score := g.avg_score.getD 0, session_count := g.session_count,
        time_spent := g.time_spent.getD 0 }),
    total_sessions := total_sessions,
    total_time := total_time,
    average_score := if total_sessions > 0 then total_score / (total_sessions : ℚ) else 0 }

/-- `ProgressTracker.get_user_progress` (database.py lines 114-169):
filter, group, aggregate. -/
def get_user_progress (db : Database) (user_id : String)
    (language : Option String) : ProgressData :=
  progressFromGroups (sqlGroups (db.sessions.filter (sessionSelected user_id language)))

/-- A syntactically valid feedback record whose `grammar_score` and
`confidence` are parameters, used to state what the extractor does to
out-of-range values. -/
def feedbackRecordGC (g c : ℚ) : Json :=
  Json.obj
    [("grammar_score", Json.num g),
     ("vocabulary_level", Json.str "beginner"),
     ("errors", Json.arr []),
     ("strengths", Json.arr []),
     ("suggestions", Json.arr []),
     ("confidence", Json.num c)]

/-- C9: `provide_pronunciation_feedback` is a pure mapping on the confidence
value with strict tier boundaries: `> 0.9` excellent, `(0.7, 0.9]` good,
`(0.5, 0.7]` needs work, `≤ 0.5` difficulty understanding; in particular
`0.9` falls in the good tier and `0.90001` in the excellent tier. -/
theorem pronunciation_feedback_tiers (t : String) (c : ℚ) :
    (9/10 < c →
      provide_pronunciation_feedback t c =
        "Excellent pronunciation! Very clear and understandable.")
  ∧ (7/10 < c → c ≤ 9/10 →
      provide_pronunciation_feedback t c =
        "Good pronunciation! Try to speak a bit more clearly for some words.")
  ∧ (1/2 < c → c ≤ 7/10 →
      provide_pronunciation_feedback t c =
        "Your pronunciation needs some work. Try to speak more slowly and clearly.")
  ∧ (c ≤ 1/2 →
      provide_pronunciation_feedback t c =
        "I had difficulty understanding. Let\x27s practice pronunciation of key words together.")
  ∧ (∀ t2, provide_pronunciation_feedback t2 c = provide_pronunciation_feedback t c)
  ∧ provide_pronunciation_feedback t (9/10) =
      "Good pronunciation! Try to speak a bit more clearly for some words."
  ∧ provide_pronunciation_feedback t (90001/100000) =
      "Excellent pronunciation! Very clear and understandable." := by
  refine ⟨?_, ?_, ?_, ?_, ?_, ?_, ?_⟩
  · intro h1
    simp only [provide_pronunciation_feedback]
    rw [if_pos h1]
  · intro h1 h2
    simp only [provide_pronunciation_feedback]
    rw [if_neg (not_lt.mpr h2), if_pos h1]
  · intro h1 h2
    simp only [provide_pronunciation_feedback]
    rw [if_neg (not_lt.mpr (h2.trans (by norm_num))), if_neg (not_lt.mpr h2), if_pos h1]
  · intro h1
    simp only [provide_pronunciation_feedback]
    rw [if_neg (not_lt.mpr (h1.trans (by norm_num))),
        if_neg (not_lt.mpr (h1.trans (by norm_num))), if_neg (not_lt.mpr h1)]
  · intro t2
    rfl
  · norm_num [provide_pronunciation_feedback]
  · norm_num [provide_pronunciation_feedback]

/-- Witness for C9: confidence 1 is in the strict excellent tier. -/
theorem pronunciation_feedback_tiers_witness :
    (9 : ℚ)/10 < 1 ∧
      provide_pronunciation_feedback "" 1 =
        "Excellent pronunciation! Very clear and understandable." :=
  ⟨by norm_num, (pronunciation_feedback_tiers "" 1).1 (by norm_num)⟩

/-- Counterexample for C1: on the analysis response `"\x7b\x7d"` — valid JSON
that parses to the empty object, hence missing every required key — the
extractor returns the empty object as-is, which is not fully populated and
is not the fallback record the claim requires. -/
theorem analyze_missing_keys_counterexample :
    analyze_student_input (fun _ => some "\x7b\x7d") (fun _ => some (Json.obj []))
      "Spanish" "Beginner" "hola" = Json.obj []
  ∧ isFullFeedbackRecord (Json.obj []) = false
  ∧ Json.obj [] ≠ fallbackFeedback "Beginner" := by
  refine ⟨rfl, rfl, ?_⟩
  simp [fallbackFeedback]

/-- C1 (amended): feedback extraction never raises, and it returns the
fallback record exactly when the model invocation raises or the response is
not decodable JSON; any successfully parsed JSON value — even one missing
keys or with wrong-typed keys — is returned unchanged, so the result can be
partially filled. The fallback record itself is fully populated. -/
theorem analyze_fallback_only_on_exception (llm : List Message → Option String)
    (parse : String → Option Json) (language difficulty input_text : String) :
    (llm (analysisMessages language difficulty input_text) = none →
      analyze_student_input llm parse language difficulty input_text =
        fallbackFeedback difficulty)
  ∧ (∀ content, llm (analysisMessages language difficulty input_text) = some content →
      parse content = none →
      analyze_student_input llm parse language difficulty input_text =
        fallbackFeedback difficulty)
  ∧ (∀ content j, llm (analysisMessages language difficulty input_text) = some content →
      parse content = some j →
      analyze_student_input llm parse language difficulty input_text = j)
  ∧ isFullFeedbackRecord (fallbackFeedback difficulty) = true := by
  refine ⟨?_, ?_, ?_, rfl⟩
  · intro h
    simp [analyze_student_input, h]
  · intro content h1 h2
    simp [analyze_student_input, h1, h2]
  · intro content j h1 h2
    simp [analyze_student_input, h1, h2]

/-- Witness for C1: a model whose invocation always raises yields the
fallback record. -/
theorem analyze_fallback_only_on_exception_witness :
    (fun (_ : List Message) => (none : Option String))
        (analysisMessages "Spanish" "Beginner" "hola") = none
  ∧ analyze_student_input (fun _ => none) (fun _ => none) "Spanish" "Beginner" "hola" =
      fallbackFeedback "Beginner" :=
  ⟨rfl, (analyze_fallback_only_on_exception (fun _ => none) (fun _ => none)
    "Spanish" "Beginner" "hola").1 rfl⟩

/-- Counterexample for C3: a valid record with `confidence = 1.7` comes back
with `confidence = 1.7`, not clamped to `1.0` as the claim requires. -/
theorem analyze_no_clamp_counterexample :
    jsonGet (analyze_student_input (fun _ => some "raw")
        (fun _ => some (feedbackRecordGC 8 (17/10))) "Spanish" "Beginner" "hola")
      "confidence" = some (Json.num (17/10))
  ∧ (17 : ℚ)/10 ≠ 1
  ∧ 1 < (17 : ℚ)/10 := by
  refine ⟨rfl, by norm_num, by norm_num⟩

/-- C3 (amended): whenever the analysis response parses as JSON, the parsed
record is returned with every field unchanged — in particular `confidence`
and `grammar_score` are NOT clamped: they come back exactly as parsed even
when outside `[0, 1]` and `[0, 10]`. -/
theorem analyze_returns_parsed_unchanged (llm : List Message → Option String)
    (parse : String → Option Json) (language difficulty input_text content : String)
    (g c : ℚ)
    (hllm : llm (analysisMessages language difficulty input_text) = some content)
    (hparse : parse content = some (feedbackRecordGC g c)) :
    analyze_student_input llm parse language difficulty input_text = feedbackRecordGC g c
  ∧ jsonGet (analyze_student_input llm parse language difficulty input_text)
      "confidence" = some (Json.num c)
  ∧ jsonGet (analyze_student_input llm parse language difficulty input_text)
      "grammar_score" = some (Json.num g) := by
  have h : analyze_student_input llm parse language difficulty input_text =
      feedbackRecordGC g c := by
    simp [analyze_student_input, hllm, hparse]
  refine ⟨h, ?_, ?_⟩
  · rw [h]
    rfl
  · rw [h]
    rfl

/-- Witness for C3: a parse producing an out-of-range record
(`grammar_score = 11`, `confidence = 1.7`) is returned unchanged. -/
theorem analyze_returns_parsed_unchanged_witness :
    ((fun (_ : List Message) => some "raw")
        (analysisMessages "Spanish" "Beginner" "hola") = some "raw")
  ∧ ((fun (_ : String) => some (feedbackRecordGC 11 (17/10))) "raw" =
      some (feedbackRecordGC 11 (17/10)))
  ∧ (analyze_student_input (fun _ => some "raw")
        (fun _ => some (feedbackRecordGC 11 (17/10))) "Spanish" "Beginner" "hola" =
        feedbackRecordGC 11 (17/10)
     ∧ jsonGet (analyze_student_input (fun _ => some "raw")
          (fun _ => some (feedbackRecordGC 11 (17/10))) "Spanish" "Beginner" "hola")
        "confidence" = some (Json.num (17/10))
     ∧ jsonGet (analyze_student_input (fun _ => some "raw")
          (fun _ => some (feedbackRecordGC 11 (17/10))) "Spanish" "Beginner" "hola")
        "grammar_score" = some (Json.num 11)) :=
  ⟨rfl, rfl, analyze_returns_parsed_unchanged (fun _ => some "raw")
    (fun _ => some (feedbackRecordGC 11 (17/10))) "Spanish" "Beginner" "hola" "raw"
    11 (17/10) rfl rfl⟩

/-- A concrete tutor state right after
`set_learning_context("Spanish", "Beginner", "Conversation Practice")`. -/
def demoState : TutorState :=
  { current_language := "Spanish", current_difficulty := "Beginner",
    current_lesson_type := "Conversation Practice", lesson_context := {}, memory := [] }

/-- A backend that raises on the conversation call (whose second message is
the new human turn "hola") but answers the analysis call with the text
`"[1, 2]"` — valid JSON that decodes to a list, not a dict. -/
def crashLlm : List Message → Option String :=
  fun msgs =>
    match msgs with
    | [_, Message.human h] => if h == "hola" then none else some "[1, 2]"
    | _ => some "[1, 2]"

/-- Counterexample for C6: with the provider invocation raising on the
conversation call but the analysis call returning `"[1, 2]"`, the analysis
JSON decodes to a list, so `feedback.get("confidence", 0.8)` raises
`AttributeError` and `process_student_input` propagates that crash instead
of returning a result with `response`, `feedback` and `confidence_score`. -/
theorem process_student_input_crash_counterexample :
    crashLlm (conversationMessages demoState "hola") = none
  ∧ analyze_student_input crashLlm (fun _ => some (Json.arr [Json.num 1, Json.num 2]))
      demoState.current_language demoState.current_difficulty "hola" =
      Json.arr [Json.num 1, Json.num 2]
  ∧ (process_student_input crashLlm (fun _ => some (Json.arr [Json.num 1, Json.num 2]))
      demoState "hola" "text").2 = Except.error PyError.attributeError := by
  refine ⟨by rfl, by rfl, by rfl⟩

/-- C6 (amended): when the provider invocation raises,
`process_student_input` still appends the exchange — with the fixed apology
string as the tutor turn — to memory, and still runs feedback extraction on
the student input (through the same model handle). Whenever the extracted
feedback is a dict — in particular always when extraction fell back, e.g.
because the analysis invocation also raised — it returns a result carrying
`response` (the apology string), `feedback` and `confidence_score`
(defaulting to `0.8` when the dict has no `confidence` key, and `0.7` on
the fallback record). But when the analysis response parses to a non-dict
JSON value, `feedback.get("confidence", 0.8)` raises `AttributeError`,
which propagates — after the memory append — instead of a result. -/
theorem process_student_input_recovers (llm : List Message → Option String)
    (parse : String → Option Json) (st : TutorState) (student_input input_type : String)
    (hfail : llm (conversationMessages st student_input) = none) :
    (process_student_input llm parse st student_input input_type).1.memory =
      st.memory ++ [Message.human student_input, Message.ai apologyString]
  ∧ (∀ c, jsonDictGet (analyze_student_input llm parse st.current_language
        st.current_difficulty student_input) "confidence" (Json.num (4/5)) = Except.ok c →
      (process_student_input llm parse st student_input input_type).2 =
        Except.ok
          { response := apologyString,
            feedback := analyze_student_input llm parse st.current_language
              st.current_difficulty student_input,
            input_type := input_type,
            confidence_score := c })
  ∧ (∀ e, jsonDictGet (analyze_student_input llm parse st.current_language
        st.current_difficulty student_input) "confidence" (Json.num (4/5)) = Except.error e →
      (process_student_input llm parse st student_input input_type).2 = Except.error e)
  ∧ (llm (analysisMessages st.current_language st.current_difficulty student_input) = none →
      (process_student_input llm parse st student_input input_type).2 =
        Except.ok
          { response := apologyString,
            feedback := fallbackFeedback st.current_difficulty,
            input_type := input_type,
            confidence_score := Json.num (7/10) }) := by
  refine ⟨?_, ?_, ?_, ?_⟩
  · simp [process_student_input, hfail]
  · intro c hc
    simp [process_student_input, hfail, hc, Except.map]
  · intro e he
    simp [process_student_input, hfail, he, Except.map]
  · intro hanalysis
    have hfb : analyze_student_input llm parse st.current_language
        st.current_difficulty student_input = fallbackFeedback st.current_difficulty := by
      simp [analyze_student_input, hanalysis]
    have hget : jsonDictGet (fallbackFeedback st.current_difficulty) "confidence"
        (Json.num (4/5)) = Except.ok (Json.num (7/10)) := by rfl
    simp [process_student_input, hfail, hfb, hget, Except.map]

/-- Witness for C6: a backend that always raises yields the apology
response, appends the exchange, and returns the fallback record with
confidence 0.7. -/
theorem process_student_input_recovers_witness :
    (fun (_ : List Message) => (none : Option String))
        (conversationMessages demoState "hola") = none
  ∧ (process_student_input (fun _ => none) (fun _ => none) demoState "hola" "text").1.memory =
      demoState.memory ++ [Message.human "hola", Message.ai apologyString]
  ∧ (process_student_input (fun _ => none) (fun _ => none) demoState "hola" "text").2 =
      Except.ok
        { response := apologyString,
          feedback := fallbackFeedback demoState.current_difficulty,
          input_type := "text",
          confidence_score := Json.num (7/10) } :=
  ⟨rfl,
   (process_student_input_recovers (fun _ => none) (fun _ => none) demoState "hola" "text" rfl).1,
   (process_student_input_recovers (fun _ => none) (fun _ => none) demoState "hola" "text"
     rfl).2.2.2 rfl⟩

/-- C2 (bug evidence): the conversation history sent to the provider is the
raw `chat_memory.messages` list, which grows by two messages per turn with
no eviction, so after 11 turns the provider call carries 22 history
messages — above the `2 * k = 20` bound that the configured window
(`k = 10`) was meant to enforce; the windowed view the code never reads
would have held exactly 20. -/
theorem memory_exceeds_window (llm : List Message → Option String)
    (parse : String → Option Json) (student_input input_type : String) (st : TutorState) :
    (∀ n, (iterateProcess llm parse student_input input_type st n).memory.length =
        st.memory.length + 2 * n)
  ∧ (iterateProcess (fun _ => none) (fun _ => none) "hola" "text" demoState 11).memory.length = 22
  ∧ (conversationMessages
      (iterateProcess (fun _ => none) (fun _ => none) "hola" "text" demoState 11) "hola").length = 24
  ∧ 2 * memoryK < 22
  ∧ (windowedBuffer
      (iterateProcess (fun _ => none) (fun _ => none) "hola" "text" demoState 11).memory).length =
      2 * memoryK := by
  refine ⟨?_, rfl, rfl, by decide, rfl⟩
  intro n
  induction n with
  | zero => rfl
  | succ n ih =>
    have hstep : ∀ st2 : TutorState,
        ((process_student_input llm parse st2 student_input input_type).1).memory.length =
          st2.memory.length + 2 := by
      intro st2
      simp [process_student_input]
    rw [iterateProcess, hstep, ih]
    omega

/-- The row of the single OPEN session used in the concrete stores below
(id 1, started at t = 100). -/
def openRow : SessionRow :=
  { id := 1, user_id := "u1", language := "Spanish",
    lesson_type := "Conversation Practice", difficulty := "Beginner",
    start_time := 100 }

/-- A store holding only `openRow`. -/
def dbOpen : Database := { sessions := [openRow] }

/-- `openRow` as rewritten by `end_session` at t = 200 with score 85. -/
def closedRow200 : SessionRow :=
  { openRow with end_time := some 200, duration := some 100, score := some 85 }

/-- `dbOpen` after `end_session` at t = 200 with score 85. -/
def dbClosed200 : Database := { sessions := [closedRow200] }

/-- `closedRow200` as rewritten by a second `end_session` at t = 300 with
score 90. -/
def closedRow300 : SessionRow :=
  { openRow with end_time := some 300, duration := some 200, score := some 90 }

/-- `dbClosed200` after a second `end_session` at t = 300 with score 90. -/
def dbClosed300 : Database := { sessions := [closedRow300] }

/-- Helper: whenever the row lookup of `end_session` finds a session, the
call returns `ok`, the sessions table is the pointwise overwrite, and the
overwritten row is stored. -/
lemma end_session_ok_of_found (db : Database) (now : Int) (sid : Nat)
    (score : Option Int) (s : SessionRow)
    (hfind : db.sessions.find? (fun r => r.id == sid) = some s) :
    ∃ db2, end_session db now sid score = Except.ok db2
      ∧ db2.sessions = db.sessions.map (fun r =>
          if r.id == sid then
            { r with
                end_time := some now,
                duration := some (now - s.start_time), score := score }
          else r)
      ∧ { s with
            end_time := some now, duration := some (now - s.start_time),
            score := score } ∈ db2.sessions := by
  refine ⟨{ db with sessions := db.sessions.map (fun r =>
      if r.id == sid then
        { r with
            end_time := some now,
            duration := some (now - s.start_time), score := score }
      else r) }, ?_, rfl, ?_⟩
  · unfold end_session
    rw [hfind]
  · have hmem : s ∈ db.sessions := List.mem_of_find?_eq_some hfind
    have hps := List.find?_some hfind
    have h2 := List.mem_map_of_mem (fun r =>
      if r.id == sid then
        { r with
            end_time := some now,
            duration := some (now - s.start_time), score := score }
      else r) hmem
    simpa [hps] using h2

/-- Counterexample for C4: calling `end_session` a second time on the
already-CLOSED session 1 does not fail — it returns `ok` and overwrites
`end_time`, `duration` and `score` — and calling it on the unknown id 2
fails with a `TypeError` (from subscripting `fetchone()`), not with a
`SessionStateError`, which does not exist in the code. -/
theorem end_session_twice_counterexample :
    end_session dbOpen 200 1 (some 85) = Except.ok dbClosed200
  ∧ end_session dbClosed200 300 1 (some 90) = Except.ok dbClosed300
  ∧ (dbClosed200.sessions.map fun s => (s.end_time, s.duration, s.score)) =
      [(some 200, some 100, some 85)]
  ∧ (dbClosed300.sessions.map fun s => (s.end_time, s.duration, s.score)) =
      [(some 300, some 200, some 90)]
  ∧ end_session dbOpen 200 2 none = Except.error PyError.typeError := by
  refine ⟨by rfl, by rfl, by rfl, by rfl, by rfl⟩

/-- C4 (amended): `end_session` performs no state check. On an unknown id
it fails with `TypeError` (there is no `SessionStateError` in the code); on
any existing session — OPEN or already CLOSED — it succeeds and overwrites
the stored row with `end_time = now`, `duration = now - start_time` and the
new score, so a CLOSED session's fields can change. -/
theorem end_session_no_state_check (db : Database) (now : Int) (sid : Nat)
    (score : Option Int) :
    (db.sessions.find? (fun r => r.id == sid) = none →
      end_session db now sid score = Except.error PyError.typeError)
  ∧ (∀ s, db.sessions.find? (fun r => r.id == sid) = some s →
      ∃ db2, end_session db now sid score = Except.ok db2
        ∧ db2.sessions = db.sessions.map (fun r =>
            if r.id == sid then
              { r with
                  end_time := some now,
                  duration := some (now - s.start_time), score := score }
            else r)
        ∧ { s with
              end_time := some now, duration := some (now - s.start_time),
              score := score } ∈ db2.sessions) := by
  constructor
  · intro h
    simp [end_session, h]
  · intro s hfind
    exact end_session_ok_of_found db now sid score s hfind

/-- Witness for C4: on `dbClosed200` — whose only session is CLOSED —
`end_session` still succeeds and rewrites the row. -/
theorem end_session_no_state_check_witness :
    dbClosed200.sessions.find? (fun r => r.id == 1) = some closedRow200
  ∧ ∃ db2, end_session dbClosed200 300 1 (some 90) = Except.ok db2
      ∧ db2.sessions = dbClosed200.sessions.map (fun r =>
          if r.id == 1 then
            { r with
                end_time := some (300 : Int),
                duration := some ((300 : Int) - closedRow200.start_time),
                score := some 90 }
          else r)
      ∧ { closedRow200 with
            end_time := some (300 : Int),
            duration := some ((300 : Int) - closedRow200.start_time),
            score := some 90 } ∈ db2.sessions :=
  ⟨by rfl,
   (end_session_no_state_check dbClosed200 300 1 (some 90)).2 closedRow200 (by rfl)⟩

/-- Counterexample for C7: `log_interaction` on the CLOSED session 1 (and
even on the unknown session 99) succeeds and appends a row instead of
failing with `SessionStateError`. -/
theorem log_interaction_closed_counterexample :
    (log_interaction dbClosed200 300 1 "Hola" "Hello" none).interactions =
      [{
        id := 1, session_id := 1, timestamp := 300, user_input := "Hola",
        ai_response := "Hello", feedback_score := none }]
  ∧ (log_interaction dbClosed200 300 99 "Hola" "Hello" none).interactions.length = 1 := by
  refine ⟨by rfl, by rfl⟩

/-- C7 (amended): `log_interaction` appends an `Interaction` row
unconditionally — there is no check that the session is OPEN, or even that
it exists, and no `SessionStateError` in the code — and it never updates or
deletes existing rows (every previously stored row is unchanged at its
position, and the sessions table is untouched). -/
theorem log_interaction_unconditional (db : Database) (now : Int) (sid : Nat)
    (ui ar : String) (fs : Option Int) :
    (log_interaction db now sid ui ar fs).interactions =
      db.interactions ++
        [{
          id := db.interactions.length + 1, session_id := sid, timestamp := now,
          user_input := ui, ai_response := ar, feedback_score := fs }]
  ∧ (log_interaction db now sid ui ar fs).sessions = db.sessions
  ∧ ∀ i, i < db.interactions.length →
      (log_interaction db now sid ui ar fs).interactions[i]? = db.interactions[i]? := by
  refine ⟨rfl, rfl, ?_⟩
  intro i hi
  exact List.getElem?_append_left hi

/-- A store with one CLOSED session and one already-logged interaction. -/
def dbWithInteraction : Database :=
  { sessions := dbClosed200.sessions,
    interactions := [{
      id := 1, session_id := 1, timestamp := 150,
      user_input := "Hola", ai_response := "Buenos dias", feedback_score := some 4 }] }

/-- Witness for C7: logging to the closed session of `dbWithInteraction`
appends and leaves the existing row 0 unchanged. -/
theorem log_interaction_unconditional_witness :
    0 < dbWithInteraction.interactions.length
  ∧ (log_interaction dbWithInteraction 300 1 "Adios" "Hasta luego" none).interactions[0]? =
      dbWithInteraction.interactions[0]? :=
  ⟨by simp [dbWithInteraction],
   (log_interaction_unconditional dbWithInteraction 300 1 "Adios" "Hasta luego" none).2.2
     0 (by simp [dbWithInteraction])⟩

/-- `dbOpen` after `end_session` at t = 40, i.e. with the clock set 60
seconds before the session start. -/
def dbSkewed : Database :=
  { sessions := [{ openRow with end_time := some 40, duration := some (-60) }] }

/-- Counterexample for C8: ending the OPEN session started at t = 100 while
the clock reads t = 40 stores `duration = -60`: the stored duration is
negative, not clamped to 0. -/
theorem end_session_negative_duration_counterexample :
    end_session dbOpen 40 1 none = Except.ok dbSkewed
  ∧ (dbSkewed.sessions.map fun s => s.duration) = [some (-60)]
  ∧ (-60 : Int) < 0 := by
  refine ⟨by rfl, by rfl, by norm_num⟩

/-- C8 (amended): for an OPEN session, `end_session` stores
`duration = now - start_time` with no clamping, so whenever clock skew puts
`now` before `start_time` the stored duration is strictly negative. -/
theorem end_session_duration_unclamped (db : Database) (now : Int) (sid : Nat)
    (score : Option Int) (s : SessionRow)
    (hfind : db.sessions.find? (fun r => r.id == sid) = some s)
    (hopen : s.end_time = none) :
    (∃ db2, end_session db now sid score = Except.ok db2
      ∧ { s with
            end_time := some now, duration := some (now - s.start_time),
            score := score } ∈ db2.sessions)
  ∧ (now < s.start_time → now - s.start_time < 0) := by
  constructor
  · obtain ⟨db2, h1, _h2, h3⟩ := end_session_ok_of_found db now sid score s hfind
    exact ⟨db2, h1, h3⟩
  · intro h
    omega

/-- Witness for C8: the skewed concrete run, where the stored duration is
`40 - 100 = -60 < 0`. -/
theorem end_session_duration_unclamped_witness :
    dbOpen.sessions.find? (fun r => r.id == 1) = some openRow
  ∧ openRow.end_time = none
  ∧ ((40 : Int) < openRow.start_time → (40 : Int) - openRow.start_time < 0) :=
  ⟨by rfl, by rfl,
   (end_session_duration_unclamped dbOpen 40 1 none openRow (by rfl) (by rfl)).2⟩

/-- Helper: a group whose SQL average is non-NULL contributes exactly
`avg * session_count` to the score accumulator (a zero average contributes
`0 = 0 * count`, so skipping it is harmless). -/
lemma scoreContribution_of_isSome (g : GroupRow) (h : g.avg_score.isSome) :
    scoreContribution g = g.avg_score.getD 0 * (g.session_count : ℚ) := by
  cases hg : g.avg_score with
  | none => rw [hg] at h; simp at h
  | some a =>
    by_cases ha : a = 0
    · simp [scoreContribution, hg, ha]
    · simp [scoreContribution, hg, ha]

/-- Helper: over groups with non-NULL averages, the score accumulator is
the weighted sum of averages. -/
lemma total_score_eq_weighted (groups : List GroupRow)
    (h : ∀ g ∈ groups, g.avg_score.isSome) :
    (groups.map scoreContribution).sum =
      (groups.map (fun g => g.avg_score.getD 0 * (g.session_count : ℚ))).sum := by
  induction groups with
  | nil => rfl
  | cons a l ih =>
    rw [List.map_cons, List.map_cons, List.sum_cons, List.sum_cons,
      scoreContribution_of_isSome a (h a (by simp)),
      ih (fun g hg => h g (by simp [hg]))]

/-- Helper: a group with a NULL or zero average contributes nothing to the
score accumulator. -/
lemma scoreContribution_of_null_or_zero (g : GroupRow)
    (h : g.avg_score = none ∨ g.avg_score = some 0) :
    scoreContribution g = 0 := by
  cases h with
  | inl h => simp [scoreContribution, h]
  | inr h => simp [scoreContribution, h]

/-- C5: over closed-session groups whose SQL averages are all non-NULL, the
grand `average_score` of `get_user_progress` is the weighted mean of the
per-group averages, weighted by each group's `session_count`; and sessions
without an `end_time` (still OPEN) never affect the result. -/
theorem get_user_progress_weighted_average (groups : List GroupRow)
    (hall : ∀ g ∈ groups, g.avg_score.isSome)
    (hpos : 0 < (groups.map (fun g => g.session_count)).sum) :
    (progressFromGroups groups).average_score =
      (groups.map (fun g => g.avg_score.getD 0 * (g.session_count : ℚ))).sum /
        (((groups.map (fun g => g.session_count)).sum : ℕ) : ℚ)
  ∧ ∀ (db : Database) (s : SessionRow) (uid : String) (lang : Option String),
      s.end_time = none →
      get_user_progress (⟨db.sessions ++ [s], db.interactions⟩ : Database) uid lang =
        get_user_progress db uid lang := by
  constructor
  · simp only [progressFromGroups]
    rw [if_pos hpos, total_score_eq_weighted groups hall]
  · intro db s uid lang hop
    simp only [get_user_progress]
    have hfilter : ((⟨db.sessions ++ [s], db.interactions⟩ : Database)).sessions.filter
        (sessionSelected uid lang) = db.sessions.filter (sessionSelected uid lang) := by
      show (db.sessions ++ [s]).filter (sessionSelected uid lang) = _
      rw [List.filter_append]
      have hps : sessionSelected uid lang s = false := by
        simp [sessionSelected, hop]
      simp [List.filter, hps]
    rw [hfilter]

/-- The first example group of the spec: one (language, lesson type,
difficulty) group holding two closed sessions with scores 80 and 90,
so `AVG(score) = 85` and `session_count = 2`. -/
def groupA : GroupRow :=
  { language := "Spanish", lesson_type := "Conversation Practice",
    difficulty := "Beginner", avg_score := some 85, session_count := 2,
    time_spent := some 600 }

/-- The second example group of the spec: one closed session with score 70. -/
def groupB : GroupRow :=
  { language := "Spanish", lesson_type := "Grammar",
    difficulty := "Beginner", avg_score := some 70, session_count := 1,
    time_spent := some 300 }

/-- A group of one closed session whose score is NULL, so `AVG(score)` is
NULL. -/
def groupNull : GroupRow :=
  { language := "Spanish", lesson_type := "Vocabulary",
    difficulty := "Beginner", avg_score := none, session_count := 1,
    time_spent := some 120 }

/-- Witness for C5: the spec's example — groups with averages 85 (2
sessions) and 70 (1 session) — gives the weighted mean
`(85*2 + 70*1)/3 = 80`, not the plain mean `77.5`. -/
theorem get_user_progress_weighted_average_witness :
    (∀ g ∈ [groupA, groupB], g.avg_score.isSome)
  ∧ 0 < ([groupA, groupB].map (fun g => g.session_count)).sum
  ∧ (progressFromGroups [groupA, groupB]).average_score =
      ([groupA, groupB].map (fun g => g.avg_score.getD 0 * (g.session_count : ℚ))).sum /
        ((([groupA, groupB].map (fun g => g.session_count)).sum : ℕ) : ℚ)
  ∧ (progressFromGroups [groupA, groupB]).average_score = 80 := by
  have h1 : ∀ g ∈ [groupA, groupB], g.avg_score.isSome := by
    intro g hg
    simp only [List.mem_cons, List.not_mem_nil, or_false] at hg
    rcases hg with rfl | rfl
    · rfl
    · rfl
  have h2 : 0 < ([groupA, groupB].map (fun g => g.session_count)).sum := by
    simp [groupA, groupB]
  refine ⟨h1, h2, (get_user_progress_weighted_average [groupA, groupB] h1 h2).1, ?_⟩
  rw [(get_user_progress_weighted_average [groupA, groupB] h1 h2).1]
  norm_num [groupA, groupB]

/-- C10: a closed-session group whose aggregated average is NULL or 0 adds
its `session_count` to the grand denominator while adding nothing to the
score numerator; a user whose groups all have NULL averages gets
`average_score = 0`; and appending such a group to scored groups drags the
grand average strictly below the weighted mean of the scored groups. -/
theorem get_user_progress_null_group (groups : List GroupRow) (g0 : GroupRow)
    (h0 : g0.avg_score = none ∨ g0.avg_score = some 0) :
    (progressFromGroups (groups ++ [g0])).total_sessions =
      (groups.map (fun g => g.session_count)).sum + g0.session_count
  ∧ ((groups ++ [g0]).map scoreContribution).sum = (groups.map scoreContribution).sum
  ∧ ((∀ g ∈ groups, g.avg_score = none) →
      (progressFromGroups (groups ++ [g0])).average_score = 0)
  ∧ ((∀ g ∈ groups, g.avg_score.isSome) →
      0 < (groups.map (fun g => g.session_count)).sum →
      0 < g0.session_count →
      0 < (groups.map (fun g => g.avg_score.getD 0 * (g.session_count : ℚ))).sum →
      (progressFromGroups (groups ++ [g0])).average_score <
        (groups.map (fun g => g.avg_score.getD 0 * (g.session_count : ℚ))).sum /
          (((groups.map (fun g => g.session_count)).sum : ℕ) : ℚ)) := by
  have hg0 : scoreContribution g0 = 0 := scoreContribution_of_null_or_zero g0 h0
  have hsum : ((groups ++ [g0]).map scoreContribution).sum =
      (groups.map scoreContribution).sum := by
    rw [List.map_append, List.sum_append]
    simp [hg0]
  have hcount : ((groups ++ [g0]).map (fun g => g.session_count)).sum =
      (groups.map (fun g => g.session_count)).sum + g0.session_count := by
    rw [List.map_append, List.sum_append]
    simp
  refine ⟨?_, hsum, ?_, ?_⟩
  · simp only [progressFromGroups]
    exact hcount
  · intro hnull
    have hz : ((groups ++ [g0]).map scoreContribution).sum = 0 := by
      rw [hsum]
      apply List.sum_eq_zero
      intro x hx
      obtain ⟨g, hg, rfl⟩ := List.mem_map.mp hx
      exact scoreContribution_of_null_or_zero g (Or.inl (hnull g hg))
    simp only [progressFromGroups]
    rw [hz]
    by_cases hp : 0 < ((groups ++ [g0]).map (fun g => g.session_count)).sum
    · rw [if_pos hp, zero_div]
    · rw [if_neg hp]
  · intro hall hn hc0 hS
    have hweighted : ((groups ++ [g0]).map scoreContribution).sum =
        (groups.map (fun g => g.avg_score.getD 0 * (g.session_count : ℚ))).sum := by
      rw [hsum, total_score_eq_weighted groups hall]
    have hpos2 : 0 < ((groups ++ [g0]).map (fun g => g.session_count)).sum := by
      rw [hcount]; omega
    simp only [progressFromGroups]
    rw [if_pos hpos2, hweighted, hcount]
    apply div_lt_div_of_pos_left hS
    · exact_mod_cast hn
    · exact_mod_cast Nat.lt_add_of_pos_right hc0

/-- Witness for C10: appending the NULL-average group to the group with
average 85 over 2 sessions drops the grand average from 85 to
`170/3 ≈ 56.7`. -/
theorem get_user_progress_null_group_witness :
    (groupNull.avg_score = none ∨ groupNull.avg_score = some 0)
  ∧ (progressFromGroups ([groupA] ++ [groupNull])).average_score <
      ([groupA].map (fun g => g.avg_score.getD 0 * (g.session_count : ℚ))).sum /
        ((([groupA].map (fun g => g.session_count)).sum : ℕ) : ℚ) := by
  have h0 : groupNull.avg_score = none ∨ groupNull.avg_score = some 0 := Or.inl rfl
  have hall : ∀ g ∈ [groupA], g.avg_score.isSome := by
    intro g hg
    simp only [List.mem_singleton] at hg
    subst hg
    rfl
  refine ⟨h0, ?_⟩
  exact (get_user_progress_null_group [groupA] groupNull h0).2.2.2 hall
    (by simp [groupA])
    (by simp [groupNull])
    (by norm_num [groupA])

end LanguageTutor
